import Mathlib

/-!
# Verification of the scan-and-hash pipeline of scan_android_device.py

This file gives a shallow embedding of the core of the scanner:

* `md5hex` — a complete executable MD5 over byte lists (the semantics of
  the hashlib md5 object used at lines 27–33 of the source; feeding chunks
  through the incremental accumulator is modelled by `feedChunks`,
  following the documented hashlib contract that successive update calls
  are equivalent to one update on the concatenation);
* `calculate_md5` — the function at lines 17–36, over an explicit model
  `FileRead` of how the open/read calls on one file behave (open failure,
  failure midway through the read loop, or a complete read);
* `processFile` / `scan_directory` — the per-file body and loop of
  `scan_directory` at lines 39–92, over the list of paths the walker
  yields, each path paired with the outcome of its size query
  (`os.path.getsize`, line 66) and its read behaviour;
* `main` — the exit-code behaviour of `main` at lines 140–224, over an
  environment recording the argument path, the auto-detected mount point,
  path existence, and how the scan call ends.

Machine integers are `Nat` with explicit `% 4294967296` masking where the
32-bit MD5 arithmetic overflows; Python string truthiness (`if md5_hash:`,
`if args.path:`, `if not device_path:`) is modelled by explicit emptiness
tests.
-/

/-- 2^32 - 1, the 32-bit mask used for MD5 word arithmetic. -/
def mask32 : Nat := 4294967295

/-- 32-bit left rotation. -/
def rotl32 (x c : Nat) : Nat :=
  ((x <<< c) ||| (x >>> (32 - c))) &&& mask32

/-- The 64 MD5 round constants (floor(abs(sin(i+1)) * 2^32)). -/
def kTable : List Nat :=
  [0xd76aa478, 0xe8c7b756, 0x242070db, 0xc1bdceee,
   0xf57c0faf, 0x4787c62a, 0xa8304613, 0xfd469501,
   0x698098d8, 0x8b44f7af, 0xffff5bb1, 0x895cd7be,
   0x6b901122, 0xfd987193, 0xa679438e, 0x49b40821,
   0xf61e2562, 0xc040b340, 0x265e5a51, 0xe9b6c7aa,
   0xd62f105d, 0x02441453, 0xd8a1e681, 0xe7d3fbc8,
   0x21e1cde6, 0xc33707d6, 0xf4d50d87, 0x455a14ed,
   0xa9e3e905, 0xfcefa3f8, 0x676f02d9, 0x8d2a4c8a,
   0xfffa3942, 0x8771f681, 0x6d9d6122, 0xfde5380c,
   0xa4beea44, 0x4bdecfa9, 0xf6bb4b60, 0xbebfbc70,
   0x289b7ec6, 0xeaa127fa, 0xd4ef3085, 0x04881d05,
   0xd9d4d039, 0xe6db99e5, 0x1fa27cf8, 0xc4ac5665,
   0xf4292244, 0x432aff97, 0xab9423a7, 0xfc93a039,
   0x655b59c3, 0x8f0ccc92, 0xffeff47d, 0x85845dd1,
   0x6fa87e4f, 0xfe2ce6e0, 0xa3014314, 0x4e0811a1,
   0xf7537e82, 0xbd3af235, 0x2ad7d2bb, 0xeb86d391]

/-- The 64 MD5 per-round rotation amounts. -/
def sTable : List Nat :=
  [7, 12, 17, 22, 7, 12, 17, 22, 7, 12, 17, 22, 7, 12, 17, 22,
   5, 9, 14, 20, 5, 9, 14, 20, 5, 9, 14, 20, 5, 9, 14, 20,
   4, 11, 16, 23, 4, 11, 16, 23, 4, 11, 16, 23, 4, 11, 16, 23,
   6, 10, 15, 21, 6, 10, 15, 21, 6, 10, 15, 21, 6, 10, 15, 21]

/-- The four 32-bit words of the MD5 internal state. -/
structure MDState where
  a : Nat
  b : Nat
  c : Nat
  d : Nat
deriving DecidableEq

/-- MD5 initial state. -/
def md5Init : MDState :=
  ⟨0x67452301, 0xefcdab89, 0x98badcfe, 0x10325476⟩

/-- One MD5 round: round function, message index, add, rotate, shuffle. -/
def md5Step (M : List Nat) (st : MDState) (i : Nat) : MDState :=
  let f :=
    if i < 16 then (st.b &&& st.c) ||| ((mask32 ^^^ st.b) &&& st.d)
    else if i < 32 then (st.d &&& st.b) ||| ((mask32 ^^^ st.d) &&& st.c)
    else if i < 48 then st.b ^^^ st.c ^^^ st.d
    else st.c ^^^ (st.b ||| (mask32 ^^^ st.d))
  let g :=
    if i < 16 then i
    else if i < 32 then (5 * i + 1) % 16
    else if i < 48 then (3 * i + 5) % 16
    else (7 * i) % 16
  let tmp := (f + st.a + kTable.getD i 0 + M.getD g 0) % 4294967296
  ⟨st.d, (st.b + rotl32 tmp (sTable.getD i 0)) % 4294967296, st.b, st.c⟩

/-- Process one 64-byte block: decode 16 little-endian words, run the 64
rounds, add the result into the incoming state. -/
def processBlock (st : MDState) (block : List Nat) : MDState :=
  let M := (List.range 16).map (fun j =>
    block.getD (4 * j) 0 ||| (block.getD (4 * j + 1) 0 <<< 8) |||
    (block.getD (4 * j + 2) 0 <<< 16) ||| (block.getD (4 * j + 3) 0 <<< 24))
  let e := (List.range 64).foldl (md5Step M) st
  ⟨(st.a + e.a) % 4294967296, (st.b + e.b) % 4294967296,
   (st.c + e.c) % 4294967296, (st.d + e.d) % 4294967296⟩

/-- MD5 padding: append 0x80, zero bytes up to 56 mod 64, then the bit
length as a 64-bit little-endian quantity. -/
def padMessage (msg : List Nat) : List Nat :=
  let bitLen := msg.length * 8
  let zeros := (119 - msg.length % 64) % 64
  msg ++ [128] ++ List.replicate zeros 0 ++
    (List.range 8).map (fun j => (bitLen >>> (8 * j)) &&& 255)

/-- Fuel-indexed splitting of a byte list into successive chunks of at
most `k` bytes; with fuel at least the list length and `0 < k` this is
exactly the sequence of values returned by the read(k) loop at line 31. -/
def chunksOfAux (k : Nat) : Nat → List Nat → List (List Nat)
  | 0, _ => []
  | _ + 1, [] => []
  | fuel + 1, x :: xs => (x :: xs).take k :: chunksOfAux k fuel ((x :: xs).drop k)

/-- The successive chunks `f.read(k)` yields on a file whose remaining
content is `c`, until the empty chunk ends the loop. -/
def chunksOf (k : Nat) (c : List Nat) : List (List Nat) :=
  chunksOfAux k c.length c

/-- Feeding successive chunks into the incremental digest accumulator:
by the hashlib update contract, the accumulated message is the
concatenation of all chunks fed so far. -/
def feedChunks (chunks : List (List Nat)) : List Nat :=
  chunks.foldl (fun s ch => s ++ ch) []

/-- The four bytes of a 32-bit word, little-endian. -/
def wordLEBytes (w : Nat) : List Nat :=
  (List.range 4).map (fun j => (w >>> (8 * j)) &&& 255)

/-- The 16 digest bytes of a final MD5 state. -/
def digestBytes (st : MDState) : List Nat :=
  [st.a, st.b, st.c, st.d].flatMap wordLEBytes

/-- Lowercase hexadecimal digit for a nibble. -/
def hexDigit (n : Nat) : Char :=
  if n < 10 then Char.ofNat (48 + n) else Char.ofNat (87 + n)

/-- Two lowercase hex digits of one byte (the %02x rendering hexdigest
uses per byte). -/
def byteHex (b : Nat) : List Char :=
  [hexDigit (b / 16), hexDigit (b % 16)]

/-- The full MD5 hex digest of a byte list: pad, process the 64-byte
blocks, render the 16 digest bytes as 32 lowercase hex characters. -/
def md5hex (msg : List Nat) : String :=
  let final := (chunksOf 64 (padMessage msg)).foldl processBlock md5Init
  String.mk ((digestBytes final).flatMap byteHex)

/-- `true` exactly on the characters 0-9 and a-f. -/
def isLowerHexChar (ch : Char) : Bool :=
  (decide ((48 : Nat) ≤ ch.toNat) && decide (ch.toNat ≤ 57)) ||
  (decide ((97 : Nat) ≤ ch.toNat) && decide (ch.toNat ≤ 102))

/-- `true` exactly on the 32-character lowercase hexadecimal strings. -/
def isMd5Hex (s : String) : Bool :=
  s.length == 32 && s.data.all isLowerHexChar

/-- How the open/read calls behave on one file inside `calculate_md5`
(source lines 28–36): the open call fails; the read loop fails after
some chunks were already fed to the accumulator; or the whole content is
read to exhaustion. -/
inductive FileRead where
  | openFail
  | midFail (chunksFed : List (List Nat))
  | complete (content : List Nat)
deriving DecidableEq

/-- `calculate_md5`, source lines 17–36: returns the hex digest on a
complete read; returns `none` (Python `None`) when the open fails or when
any read raises mid-stream — in the latter case the chunks already fed to
the accumulator are discarded as the exception propagates to the handler
at line 34. A complete read of content `c` feeds the `read(8192)` chunks
of `c` one by one into the accumulator and finalises. -/
def calculate_md5 : FileRead → Option String
  | .openFail => none
  | .midFail _ => none
  | .complete content => some (md5hex (feedChunks (chunksOf 8192 content)))

/-- Outcome of the `os.path.getsize` call at line 66. -/
inductive SizeResult where
  | ok (n : Nat)
  | err (msg : String)
deriving DecidableEq

/-- One path yielded by the walker, with the behaviour the filesystem
exhibits for it: the size-query outcome and the read behaviour. -/
structure FileEntry where
  path : String
  size : SizeResult
  read : FileRead
deriving DecidableEq

/-- One CSV row: File Path, MD5 Hash, File Size (bytes), Status — all as
the strings the csv writer renders (line 54 and lines 82/87). -/
structure Row where
  path : String
  hash : String
  sizeField : String
  status : String
deriving DecidableEq

/-- The header row written at line 54. -/
def headerRow : Row :=
  ⟨"File Path", "MD5 Hash", "File Size (bytes)", "Status"⟩

/-- Rows written so far plus the two counters of `scan_directory`
(lines 48–49). -/
structure ScanState where
  rows : List Row
  fileCount : Nat
  errorCount : Nat
deriving DecidableEq

/-- The loop body of `scan_directory` for one file (lines 63–87):
if the size query raises, write an `Error - <reason>` row with both
sentinels and count an error (lines 84–87); otherwise hash, and on a
truthy digest (Python `if md5_hash:`) write the Success row and count a
success (lines 71–75), else write the `Error - Could not read file` row
with the size present and count an error (lines 76–82). -/
def processFile (st : ScanState) (f : FileEntry) : ScanState :=
  match f.size with
  | .err e =>
    { st with
      rows := st.rows ++ [⟨f.path, "N/A", "N/A", "Error - " ++ e⟩],
      errorCount := st.errorCount + 1 }
  | .ok n =>
    match calculate_md5 f.read with
    | some s =>
      if s = "" then
        { st with
          rows := st.rows ++ [⟨f.path, "N/A", toString n, "Error - Could not read file"⟩],
          errorCount := st.errorCount + 1 }
      else
        { st with
          rows := st.rows ++ [⟨f.path, s, toString n, "Success"⟩],
          fileCount := st.fileCount + 1 }
    | none =>
      { st with
        rows := st.rows ++ [⟨f.path, "N/A", toString n, "Error - Could not read file"⟩],
        errorCount := st.errorCount + 1 }

/-- State after the header row is written and before the walk starts
(lines 48–54). -/
def initState : ScanState := ⟨[headerRow], 0, 0⟩

/-- `scan_directory`, lines 39–92, over the sequence of files the
`os.walk` traversal yields: write the header, then run the per-file body
on each yielded path in order. -/
def scan_directory (files : List FileEntry) : ScanState :=
  files.foldl processFile initState

/-- The data rows of the output report: everything after the header. -/
def dataRows (st : ScanState) : List Row :=
  st.rows.drop 1

/-- The row the loop body writes for one file (bookkeeping view of
`processFile`). -/
def rowOf (f : FileEntry) : Row :=
  match f.size with
  | .err e => ⟨f.path, "N/A", "N/A", "Error - " ++ e⟩
  | .ok n =>
    match calculate_md5 f.read with
    | some s =>
      if s = "" then ⟨f.path, "N/A", toString n, "Error - Could not read file"⟩
      else ⟨f.path, s, toString n, "Success"⟩
    | none => ⟨f.path, "N/A", toString n, "Error - Could not read file"⟩

/-- Whether the loop body counts this file as a success. -/
def succEntry (f : FileEntry) : Bool :=
  match f.size with
  | .err _ => false
  | .ok _ =>
    match calculate_md5 f.read with
    | some s => !(s = "")
    | none => false

/-- A file on which no access error occurs: the size query succeeds and
the content is read to exhaustion. -/
def accessErrorFree (f : FileEntry) : Bool :=
  (match f.size with | .ok _ => true | .err _ => false) &&
  (match f.read with | .complete _ => true | _ => false)

/-- How the `scan_directory(...)` call inside `main` ends (lines 217–224):
normal return, `KeyboardInterrupt`, or any other unhandled exception. -/
inductive ScanOutcome where
  | completed
  | interrupted
  | fatal (msg : String)
deriving DecidableEq

/-- The environment `main` runs in: the `-p` argument (Python `None` when
absent), the result of `find_android_mount_point`, which paths exist, and
how the scan call ends. -/
structure MainEnv where
  argPath : Option String
  autoMount : Option String
  pathExists : String → Bool
  scanOutcome : ScanOutcome

/-- Python truthiness of an optional string: `None` and the empty string
are falsy. -/
def strTruthy : Option String → Bool
  | none => false
  | some s => !(s = "")

/-- The device path `main` settles on (lines 180–199): the `-p` argument
when truthy, otherwise the auto-detected mount point. -/
def devicePath (env : MainEnv) : Option String :=
  if strTruthy env.argPath then env.argPath else env.autoMount

/-- The exit status of the source's `main`, lines 140–224 (Lean reserves
the name `main`, hence `mainExit`): 1 when no device path was found
(line 197), 1 when the chosen path does not exist (line 204), 1 on
interruption or a fatal scan error (lines 219–224), and 0 — the
interpreter's implicit success status — when the scan call returns. -/
def mainExit (env : MainEnv) : Nat :=
  match devicePath env with
  | none => 1
  | some p =>
    if p = "" then 1
    else if env.pathExists p = false then 1
    else
      match env.scanOutcome with
      | .completed => 0
      | .interrupted => 1
      | .fatal _ => 1

/-! ## Supporting lemmas -/

theorem chunksOfAux_feed (k : Nat) (hk : 0 < k) :
    ∀ (fuel : Nat) (c acc : List Nat), c.length ≤ fuel →
      (chunksOfAux k fuel c).foldl (fun s ch => s ++ ch) acc = acc ++ c := by
  intro fuel
  induction fuel with
  | zero =>
    intro c acc hle
    have hc : c = [] := List.eq_nil_of_length_eq_zero (Nat.le_zero.mp hle)
    subst hc
    simp [chunksOfAux]
  | succ m ih =>
    intro c acc hle
    cases c with
    | nil => simp [chunksOfAux]
    | cons x xs =>
      simp only [chunksOfAux, List.foldl_cons]
      rw [ih ((x :: xs).drop k) (acc ++ (x :: xs).take k)
        (by simp only [List.length_drop, List.length_cons]
            simp only [List.length_cons] at hle
            omega)]
      rw [List.append_assoc, List.take_append_drop]

theorem feedChunks_chunksOf (k : Nat) (hk : 0 < k) (c : List Nat) :
    feedChunks (chunksOf k c) = c := by
  simpa [feedChunks, chunksOf] using
    chunksOfAux_feed k hk c.length c [] (Nat.le_refl _)

theorem calculate_md5_complete (c : List Nat) :
    calculate_md5 (FileRead.complete c) = some (md5hex c) := by
  simp [calculate_md5, feedChunks_chunksOf 8192 (by omega) c]

theorem hexDigit_lower (n : Nat) (h : n < 16) :
    isLowerHexChar (hexDigit n) = true := by
  interval_cases n <;> decide

theorem mem_byteHex_lower (b : Nat) (hb : b < 256) (c : Char) (hc : c ∈ byteHex b) :
    isLowerHexChar c = true := by
  simp only [byteHex, List.mem_cons, List.not_mem_nil, or_false] at hc
  rcases hc with rfl | rfl
  · exact hexDigit_lower (b / 16) (by omega)
  · exact hexDigit_lower (b % 16) (Nat.mod_lt _ (by omega))

theorem digestBytes_lt (st : MDState) : ∀ b ∈ digestBytes st, b < 256 := by
  intro b hb
  simp only [digestBytes, wordLEBytes, List.mem_flatMap, List.mem_map,
    List.mem_range] at hb
  obtain ⟨w, hw, j, hj, hbe⟩ := hb
  have hle : w >>> (8 * j) &&& 255 ≤ 255 := Nat.and_le_right
  omega

theorem digestBytes_length (st : MDState) : (digestBytes st).length = 16 := by
  simp [digestBytes, wordLEBytes]

theorem flatMap_byteHex_length (l : List Nat) :
    (l.flatMap byteHex).length = 2 * l.length := by
  induction l with
  | nil => simp
  | cons x xs ih =>
    simp only [List.flatMap_cons, List.length_append, ih, byteHex]
    simp
    omega

theorem md5hex_length (m : List Nat) : (md5hex m).length = 32 := by
  show ((digestBytes ((chunksOf 64 (padMessage m)).foldl processBlock
    md5Init)).flatMap byteHex).length = 32
  rw [flatMap_byteHex_length, digestBytes_length]

theorem md5hex_ne_empty (m : List Nat) : ¬(md5hex m = "") := by
  intro h
  have h2 := congrArg String.length h
  rw [md5hex_length] at h2
  simp [String.length] at h2

theorem md5hex_data_lower (m : List Nat) :
    ((md5hex m).data.all isLowerHexChar) = true := by
  rw [List.all_eq_true]
  intro c hc
  have hdata : (md5hex m).data =
      (digestBytes ((chunksOf 64 (padMessage m)).foldl processBlock md5Init)).flatMap
        byteHex := rfl
  rw [hdata, List.mem_flatMap] at hc
  obtain ⟨b, hb, hcb⟩ := hc
  exact mem_byteHex_lower b (digestBytes_lt _ b hb) c hcb

theorem md5hex_isMd5Hex (m : List Nat) : isMd5Hex (md5hex m) = true := by
  rw [isMd5Hex, Bool.and_eq_true]
  refine ⟨?_, md5hex_data_lower m⟩
  rw [md5hex_length]
  rfl

theorem errStatus_ne_success (e : String) : ¬("Error - " ++ e = "Success") := by
  intro h
  have h2 := congrArg String.length h
  rw [String.length_append] at h2
  have h8 : ("Error - " : String).length = 8 := rfl
  have h7 : ("Success" : String).length = 7 := rfl
  rw [h8, h7] at h2
  omega

theorem processFile_eq (st : ScanState) (f : FileEntry) :
    processFile st f =
      ⟨st.rows ++ [rowOf f],
       st.fileCount + (if succEntry f then 1 else 0),
       st.errorCount + (if succEntry f then 0 else 1)⟩ := by
  cases hsz : f.size with
  | err e => simp [processFile, rowOf, succEntry, hsz]
  | ok n =>
    cases hmd : calculate_md5 f.read with
    | none => simp [processFile, rowOf, succEntry, hsz, hmd]
    | some s =>
      by_cases hs : s = ""
      · simp [processFile, rowOf, succEntry, hsz, hmd, hs]
      · simp [processFile, rowOf, succEntry, hsz, hmd, hs]

theorem foldl_processFile (files : List FileEntry) (st : ScanState) :
    files.foldl processFile st =
      ⟨st.rows ++ files.map rowOf,
       st.fileCount + files.countP succEntry,
       st.errorCount + files.countP (fun f => ! succEntry f)⟩ := by
  induction files generalizing st with
  | nil => simp
  | cons f fs ih =>
    rw [List.foldl_cons, ih, processFile_eq]
    by_cases h : succEntry f <;>
      simp [List.countP_cons, h, List.append_assoc] <;> omega

theorem scan_directory_eq (files : List FileEntry) :
    scan_directory files =
      ⟨headerRow :: files.map rowOf,
       files.countP succEntry,
       files.countP (fun f => ! succEntry f)⟩ := by
  rw [scan_directory, foldl_processFile]
  simp [initState]

theorem dataRows_scan (files : List FileEntry) :
    dataRows (scan_directory files) = files.map rowOf := by
  rw [scan_directory_eq]
  rfl

theorem rowOf_sizeErr (f : FileEntry) (e : String) (h : f.size = SizeResult.err e) :
    rowOf f = ⟨f.path, "N/A", "N/A", "Error - " ++ e⟩ ∧ succEntry f = false := by
  simp [rowOf, succEntry, h]

theorem rowOf_hashFail (f : FileEntry) (n : Nat) (hs : f.size = SizeResult.ok n)
    (hh : calculate_md5 f.read = none) :
    rowOf f = ⟨f.path, "N/A", toString n, "Error - Could not read file"⟩ ∧
    succEntry f = false := by
  simp [rowOf, succEntry, hs, hh]

theorem rowOf_complete (f : FileEntry) (n : Nat) (c : List Nat)
    (hs : f.size = SizeResult.ok n) (hr : f.read = FileRead.complete c) :
    rowOf f = ⟨f.path, md5hex c, toString n, "Success"⟩ ∧ succEntry f = true := by
  have hmd : calculate_md5 f.read = some (md5hex c) := by
    rw [hr]
    exact calculate_md5_complete c
  simp [rowOf, succEntry, hmd, hs, md5hex_ne_empty c]

theorem rowOf_accessErrorFree (f : FileEntry) (h : accessErrorFree f = true) :
    (rowOf f).status = "Success" ∧ succEntry f = true := by
  cases hsz : f.size with
  | err e => simp [accessErrorFree, hsz] at h
  | ok n =>
    cases hr : f.read with
    | openFail => simp [accessErrorFree, hsz, hr] at h
    | midFail l => simp [accessErrorFree, hsz, hr] at h
    | complete c =>
      obtain ⟨hrow, hsucc⟩ := rowOf_complete f n c hsz hr
      rw [hrow]
      exact ⟨rfl, hsucc⟩

theorem countP_not_add {α : Type} (p : α → Bool) (l : List α) :
    l.countP p + l.countP (fun a => ! p a) = l.length := by
  induction l with
  | nil => simp
  | cons x xs ih => by_cases h : p x <;> simp [List.countP_cons, h] <;> omega

/-! ## Claim theorems -/

/-- C5: for every file whose size query succeeds but whose hashing fails,
the scan emits a single ReadError row whose size field holds the actual
queried size and whose digest field holds the sentinel, and the error
count is incremented by exactly one (the success count is untouched). -/
theorem hash_failure_row (f : FileEntry) (n : Nat) (st : ScanState)
    (hsize : f.size = SizeResult.ok n) (hhash : calculate_md5 f.read = none) :
    processFile st f =
      { rows := st.rows ++
          [⟨f.path, "N/A", toString n, "Error - Could not read file"⟩],
        fileCount := st.fileCount,
        errorCount := st.errorCount + 1 } := by
  simp [processFile, hsize, hhash]

/-- Witness for C5 at a concrete file whose open call fails. -/
theorem hash_failure_row_witness :
    (FileEntry.mk "/sdcard/gone.jpg" (SizeResult.ok 5) FileRead.openFail).size =
        SizeResult.ok 5 ∧
    calculate_md5 (FileEntry.mk "/sdcard/gone.jpg" (SizeResult.ok 5)
        FileRead.openFail).read = none ∧
    processFile initState
        (FileEntry.mk "/sdcard/gone.jpg" (SizeResult.ok 5) FileRead.openFail) =
      { rows := initState.rows ++
          [⟨"/sdcard/gone.jpg", "N/A", toString 5, "Error - Could not read file"⟩],
        fileCount := initState.fileCount,
        errorCount := initState.errorCount + 1 } :=
  ⟨rfl, rfl,
    hash_failure_row (FileEntry.mk "/sdcard/gone.jpg" (SizeResult.ok 5)
      FileRead.openFail) 5 initState rfl rfl⟩

/-- C6: a read error occurring mid-stream, after the file was opened and
some chunks were already fed to the accumulator, produces exactly the
same outcome as an open failure: `calculate_md5` returns `none`, never a
partial digest. -/
theorem midstream_error_no_partial_digest (chunksFed : List (List Nat)) :
    calculate_md5 (FileRead.midFail chunksFed) = calculate_md5 FileRead.openFail ∧
    calculate_md5 (FileRead.midFail chunksFed) = none :=
  ⟨rfl, rfl⟩

/-- C7: hashing is deterministic — a complete read of a given content
always yields `some (md5hex content)` — and the chunk size used to feed
the accumulator does not affect the digest: for any positive chunk size
`k`, feeding the `k`-chunks reconstructs the content, so the digest
equals the one fed in 8192-byte chunks. -/
theorem chunk_size_irrelevant (k : Nat) (content : List Nat) (hk : 0 < k) :
    feedChunks (chunksOf k content) = content ∧
    md5hex (feedChunks (chunksOf k content)) =
      md5hex (feedChunks (chunksOf 8192 content)) ∧
    calculate_md5 (FileRead.complete content) = some (md5hex content) := by
  have h1 := feedChunks_chunksOf k hk content
  have h2 := feedChunks_chunksOf 8192 (by omega) content
  exact ⟨h1, by rw [h1, h2], calculate_md5_complete content⟩

/-- Witness for C7 at chunk size 3 on a 7-byte content. -/
theorem chunk_size_irrelevant_witness :
    0 < 3 ∧ feedChunks (chunksOf 3 [1, 2, 3, 4, 5, 6, 7]) = [1, 2, 3, 4, 5, 6, 7] :=
  ⟨by decide, (chunk_size_irrelevant 3 [1, 2, 3, 4, 5, 6, 7] (by decide)).1⟩

/-- C9: scanning a tree in which the walker yields no regular files
succeeds with a report holding exactly the header row and no data rows,
and final counters filesProcessed = 0 and errors = 0. -/
theorem empty_tree_scan :
    scan_directory [] = ⟨[headerRow], 0, 0⟩ ∧
    dataRows (scan_directory []) = [] ∧
    (scan_directory []).fileCount = 0 ∧
    (scan_directory []).errorCount = 0 :=
  ⟨rfl, rfl, rfl, rfl⟩

set_option maxRecDepth 100000 in
/-- C10: a readable zero-length file is recorded as a Success row whose
digest is the 32-character MD5 of the empty byte string and whose size
field is 0 — never as an error. -/
theorem empty_file_success (st : ScanState) (p : String) :
    processFile st ⟨p, SizeResult.ok 0, FileRead.complete []⟩ =
      { rows := st.rows ++
          [⟨p, "d41d8cd98f00b204e9800998ecf8427e", "0", "Success"⟩],
        fileCount := st.fileCount + 1,
        errorCount := st.errorCount } ∧
    md5hex [] = "d41d8cd98f00b204e9800998ecf8427e" ∧
    (md5hex []).length = 32 := by
  have hmd : md5hex [] = "d41d8cd98f00b204e9800998ecf8427e" := by decide
  refine ⟨?_, hmd, md5hex_length []⟩
  have hc : calculate_md5 (FileRead.complete []) =
      some "d41d8cd98f00b204e9800998ecf8427e" := by
    rw [calculate_md5_complete, hmd]
  simp [processFile, hc]
  rfl

/-- C8: the exit status is zero exactly when a scan runs to completion —
a truthy device path was settled on, it exists, and the scan call
returns (even if every file produced an error record); it is non-zero
when the root path is missing or invalid, on user interruption, and on
an unhandled fatal scan error. -/
theorem exit_status_iff_completed (env : MainEnv) :
    mainExit env = 0 ↔
      ∃ p, devicePath env = some p ∧ ¬(p = "") ∧ env.pathExists p = true ∧
        env.scanOutcome = ScanOutcome.completed := by
  constructor
  · intro h
    cases hd : devicePath env with
    | none => simp [mainExit, hd] at h
    | some p =>
      by_cases hp : p = ""
      · simp [mainExit, hd, hp] at h
      · cases hex : env.pathExists p with
        | false => simp [mainExit, hd, hp, hex] at h
        | true =>
          cases ho : env.scanOutcome with
          | completed => exact ⟨p, rfl, hp, hex, rfl⟩
          | interrupted => simp [mainExit, hd, hp, hex, ho] at h
          | fatal m => simp [mainExit, hd, hp, hex, ho] at h
  · rintro ⟨p, hd, hp, hex, ho⟩
    simp [mainExit, hd, hp, hex, ho]

/-- C3: on a tree where no file or directory access error occurs, the
number of data rows (header excluded) equals the number of regular files
the walker yields, and filesProcessed + errors equals that same number. -/
theorem record_count_no_errors (files : List FileEntry)
    (_h : ∀ f ∈ files, accessErrorFree f = true) :
    (dataRows (scan_directory files)).length = files.length ∧
    (scan_directory files).fileCount + (scan_directory files).errorCount =
      files.length := by
  constructor
  · rw [dataRows_scan, List.length_map]
  · rw [scan_directory_eq]
    exact countP_not_add succEntry files

/-- Witness for C3 on a two-file tree with no access errors. -/
theorem record_count_no_errors_witness :
    (∀ f ∈ [FileEntry.mk "/sdcard/a.txt" (SizeResult.ok 0) (FileRead.complete []),
            FileEntry.mk "/sdcard/b.txt" (SizeResult.ok 2)
              (FileRead.complete [104, 105])],
        accessErrorFree f = true) ∧
    ((dataRows (scan_directory
        [FileEntry.mk "/sdcard/a.txt" (SizeResult.ok 0) (FileRead.complete []),
         FileEntry.mk "/sdcard/b.txt" (SizeResult.ok 2)
           (FileRead.complete [104, 105])])).length = 2 ∧
     (scan_directory
        [FileEntry.mk "/sdcard/a.txt" (SizeResult.ok 0) (FileRead.complete []),
         FileEntry.mk "/sdcard/b.txt" (SizeResult.ok 2)
           (FileRead.complete [104, 105])]).fileCount +
       (scan_directory
        [FileEntry.mk "/sdcard/a.txt" (SizeResult.ok 0) (FileRead.complete []),
         FileEntry.mk "/sdcard/b.txt" (SizeResult.ok 2)
           (FileRead.complete [104, 105])]).errorCount = 2) :=
  ⟨by decide,
    record_count_no_errors
      [FileEntry.mk "/sdcard/a.txt" (SizeResult.ok 0) (FileRead.complete []),
       FileEntry.mk "/sdcard/b.txt" (SizeResult.ok 2)
         (FileRead.complete [104, 105])]
      (by decide)⟩

/-- C4: a file whose size query fails yields exactly one row, with
status `Error -` followed by the failure reason and both the digest and
size fields set to `N/A`; the error count rises by one and the success
count is unchanged relative to the other files; the row does not depend
on the file's read behaviour (the hasher is never consulted); and the
files after it are still processed. -/
theorem size_query_failure_row
    (pre post : List FileEntry) (f : FileEntry) (e : String)
    (hsize : f.size = SizeResult.err e) :
    dataRows (scan_directory (pre ++ f :: post)) =
      pre.map rowOf ++ ⟨f.path, "N/A", "N/A", "Error - " ++ e⟩ :: post.map rowOf ∧
    (scan_directory (pre ++ f :: post)).errorCount =
      (pre ++ post).countP (fun g => ! succEntry g) + 1 ∧
    (scan_directory (pre ++ f :: post)).fileCount =
      (pre ++ post).countP succEntry ∧
    (∀ st r2, processFile st { f with read := r2 } = processFile st f) := by
  obtain ⟨hrow, hsucc⟩ := rowOf_sizeErr f e hsize
  refine ⟨?_, ?_, ?_, ?_⟩
  · rw [dataRows_scan, List.map_append, List.map_cons, hrow]
  · rw [scan_directory_eq]
    simp only [List.countP_append, List.countP_cons, hsucc]
    simp
    omega
  · rw [scan_directory_eq]
    simp only [List.countP_append, List.countP_cons, hsucc]
    simp
  · intro st r2
    simp [processFile, hsize]

/-- Witness for C4: a file with a failed size query between two good
files. -/
theorem size_query_failure_row_witness :
    (FileEntry.mk "/sdcard/locked.db" (SizeResult.err "[Errno 13] Permission denied")
        FileRead.openFail).size =
      SizeResult.err "[Errno 13] Permission denied" ∧
    dataRows (scan_directory
        ([FileEntry.mk "/sdcard/a.txt" (SizeResult.ok 0) (FileRead.complete [])] ++
          FileEntry.mk "/sdcard/locked.db"
            (SizeResult.err "[Errno 13] Permission denied") FileRead.openFail ::
          [FileEntry.mk "/sdcard/b.txt" (SizeResult.ok 0) (FileRead.complete [])])) =
      [FileEntry.mk "/sdcard/a.txt" (SizeResult.ok 0)
          (FileRead.complete [])].map rowOf ++
        ⟨"/sdcard/locked.db", "N/A", "N/A",
          "Error - " ++ "[Errno 13] Permission denied"⟩ ::
        [FileEntry.mk "/sdcard/b.txt" (SizeResult.ok 0)
          (FileRead.complete [])].map rowOf :=
  ⟨rfl,
    (size_query_failure_row
      [FileEntry.mk "/sdcard/a.txt" (SizeResult.ok 0) (FileRead.complete [])]
      [FileEntry.mk "/sdcard/b.txt" (SizeResult.ok 0) (FileRead.complete [])]
      (FileEntry.mk "/sdcard/locked.db"
        (SizeResult.err "[Errno 13] Permission denied") FileRead.openFail)
      "[Errno 13] Permission denied" rfl).1⟩

/-- C2: in every data row the scan emits, the MD5 Hash field is a
32-character lowercase hexadecimal string if and only if the Status
field is `Success`; in every other row the hash field is exactly the
sentinel `N/A`. -/
theorem digest_iff_success (files : List FileEntry) (r : Row)
    (hr : r ∈ dataRows (scan_directory files)) :
    (isMd5Hex r.hash = true ↔ r.status = "Success") ∧
    (¬(r.status = "Success") → r.hash = "N/A") := by
  rw [dataRows_scan, List.mem_map] at hr
  obtain ⟨f, hf, rfl⟩ := hr
  cases hsz : f.size with
  | err e =>
    obtain ⟨hrow, -⟩ := rowOf_sizeErr f e hsz
    rw [hrow]
    show (isMd5Hex "N/A" = true ↔ ("Error - " ++ e) = "Success") ∧
      (¬(("Error - " ++ e) = "Success") → ("N/A" : String) = "N/A")
    refine ⟨⟨fun h2 => absurd h2 (by decide),
      fun h2 => absurd h2 (errStatus_ne_success e)⟩, fun _ => rfl⟩
  | ok n =>
    cases hmd : calculate_md5 f.read with
    | none =>
      obtain ⟨hrow, -⟩ := rowOf_hashFail f n hsz hmd
      rw [hrow]
      show (isMd5Hex "N/A" = true ↔
          ("Error - Could not read file" : String) = "Success") ∧
        (¬(("Error - Could not read file" : String) = "Success") →
          ("N/A" : String) = "N/A")
      refine ⟨⟨fun h2 => absurd h2 (by decide), fun h2 => absurd h2 (by decide)⟩,
        fun _ => rfl⟩
    | some s =>
      have hex : ∃ c, f.read = FileRead.complete c ∧ md5hex c = s := by
        cases hread : f.read with
        | openFail => rw [hread] at hmd; simp [calculate_md5] at hmd
        | midFail l => rw [hread] at hmd; simp [calculate_md5] at hmd
        | complete c =>
          rw [hread, calculate_md5_complete] at hmd
          exact ⟨c, rfl, Option.some.inj hmd⟩
      obtain ⟨c, hread, rfl⟩ := hex
      obtain ⟨hrow, -⟩ := rowOf_complete f n c hsz hread
      rw [hrow]
      show (isMd5Hex (md5hex c) = true ↔ ("Success" : String) = "Success") ∧
        (¬(("Success" : String) = "Success") → md5hex c = "N/A")
      exact ⟨⟨fun _ => rfl, fun _ => md5hex_isMd5Hex c⟩, fun h2 => absurd rfl h2⟩

set_option maxRecDepth 100000 in
/-- Witness for C2 at the Success row of a one-file scan. -/
theorem digest_iff_success_witness :
    (Row.mk "/sdcard/a.txt" "d41d8cd98f00b204e9800998ecf8427e" "0" "Success") ∈
      dataRows (scan_directory
        [FileEntry.mk "/sdcard/a.txt" (SizeResult.ok 0) (FileRead.complete [])]) ∧
    ((isMd5Hex (Row.mk "/sdcard/a.txt" "d41d8cd98f00b204e9800998ecf8427e" "0"
          "Success").hash = true ↔
        (Row.mk "/sdcard/a.txt" "d41d8cd98f00b204e9800998ecf8427e" "0"
          "Success").status = "Success") ∧
     (¬((Row.mk "/sdcard/a.txt" "d41d8cd98f00b204e9800998ecf8427e" "0"
          "Success").status = "Success") →
        (Row.mk "/sdcard/a.txt" "d41d8cd98f00b204e9800998ecf8427e" "0"
          "Success").hash = "N/A")) :=
  ⟨by decide,
    digest_iff_success
      [FileEntry.mk "/sdcard/a.txt" (SizeResult.ok 0) (FileRead.complete [])]
      (Row.mk "/sdcard/a.txt" "d41d8cd98f00b204e9800998ecf8427e" "0" "Success")
      (by decide)⟩

/-- C1: a scan of ten files in which exactly one vanishes after its size
query but before the hash attempt (the open inside the hasher fails,
every other file is fully readable) emits 9 Success rows and exactly one
`Error - Could not read file` row, and the final summary counters are
filesProcessed = 9 and errors = 1. -/
theorem ten_files_one_deleted
    (pre post : List FileEntry) (bad : FileEntry) (n : Nat)
    (hgood : ∀ f ∈ pre ++ post, accessErrorFree f = true)
    (hnine : pre.length + post.length = 9)
    (hbadSize : bad.size = SizeResult.ok n)
    (hbadRead : bad.read = FileRead.openFail) :
    (dataRows (scan_directory (pre ++ bad :: post))).countP
        (fun r => r.status == "Success") = 9 ∧
    (dataRows (scan_directory (pre ++ bad :: post))).countP
        (fun r => r.status == "Error - Could not read file") = 1 ∧
    (scan_directory (pre ++ bad :: post)).fileCount = 9 ∧
    (scan_directory (pre ++ bad :: post)).errorCount = 1 := by
  have hpre : ∀ f ∈ pre, (rowOf f).status = "Success" ∧ succEntry f = true :=
    fun f hf => rowOf_accessErrorFree f (hgood f (List.mem_append_left _ hf))
  have hpost : ∀ f ∈ post, (rowOf f).status = "Success" ∧ succEntry f = true :=
    fun f hf => rowOf_accessErrorFree f (hgood f (List.mem_append_right _ hf))
  have hbadHash : calculate_md5 bad.read = none := by
    rw [hbadRead]
    rfl
  obtain ⟨hbrow, hbsucc⟩ := rowOf_hashFail bad n hbadSize hbadHash
  have hbadS : ((rowOf bad).status == "Success") = false := by
    rw [hbrow]
    show (("Error - Could not read file" : String) == "Success") = false
    decide
  have hbadE : ((rowOf bad).status == "Error - Could not read file") = true := by
    rw [hbrow]
    show (("Error - Could not read file" : String) ==
      "Error - Could not read file") = true
    decide
  have hdrows : dataRows (scan_directory (pre ++ bad :: post)) =
      pre.map rowOf ++ rowOf bad :: post.map rowOf := by
    rw [dataRows_scan, List.map_append, List.map_cons]
  have hSpre : (pre.map rowOf).countP (fun r => r.status == "Success") =
      pre.length := by
    rw [List.countP_map, List.countP_eq_length]
    intro f hf
    simp [Function.comp, (hpre f hf).1]
  have hSpost : (post.map rowOf).countP (fun r => r.status == "Success") =
      post.length := by
    rw [List.countP_map, List.countP_eq_length]
    intro f hf
    simp [Function.comp, (hpost f hf).1]
  have hEpre : (pre.map rowOf).countP
      (fun r => r.status == "Error - Could not read file") = 0 := by
    rw [List.countP_map, List.countP_eq_zero]
    intro f hf
    simp [Function.comp, (hpre f hf).1]
  have hEpost : (post.map rowOf).countP
      (fun r => r.status == "Error - Could not read file") = 0 := by
    rw [List.countP_map, List.countP_eq_zero]
    intro f hf
    simp [Function.comp, (hpost f hf).1]
  have hcpre : pre.countP succEntry = pre.length := by
    rw [List.countP_eq_length]
    intro f hf
    exact (hpre f hf).2
  have hcpost : post.countP succEntry = post.length := by
    rw [List.countP_eq_length]
    intro f hf
    exact (hpost f hf).2
  have hnpre : pre.countP (fun f => ! succEntry f) = 0 := by
    rw [List.countP_eq_zero]
    intro f hf
    simp [(hpre f hf).2]
  have hnpost : post.countP (fun f => ! succEntry f) = 0 := by
    rw [List.countP_eq_zero]
    intro f hf
    simp [(hpost f hf).2]
  refine ⟨?_, ?_, ?_, ?_⟩
  · rw [hdrows, List.countP_append, List.countP_cons, hSpre, hSpost]
    simp only [hbadS]
    simp
    omega
  · rw [hdrows, List.countP_append, List.countP_cons, hEpre, hEpost]
    simp only [hbadE]
    simp
  · rw [scan_directory_eq]
    show (pre ++ bad :: post).countP succEntry = 9
    rw [List.countP_append, List.countP_cons, hcpre, hcpost]
    simp only [hbsucc]
    simp
    omega
  · rw [scan_directory_eq]
    show (pre ++ bad :: post).countP (fun f => ! succEntry f) = 1
    rw [List.countP_append, List.countP_cons, hnpre, hnpost]
    simp [hbsucc]

/-- Witness for C1: five readable files, one that vanishes before its
hash attempt, four more readable files. -/
theorem ten_files_one_deleted_witness :
    (∀ f ∈ List.replicate 5
          (FileEntry.mk "/sdcard/DCIM/a.jpg" (SizeResult.ok 0)
            (FileRead.complete [])) ++
        List.replicate 4
          (FileEntry.mk "/sdcard/DCIM/b.jpg" (SizeResult.ok 0)
            (FileRead.complete [])),
      accessErrorFree f = true) ∧
    (List.replicate 5
        (FileEntry.mk "/sdcard/DCIM/a.jpg" (SizeResult.ok 0)
          (FileRead.complete []))).length +
      (List.replicate 4
        (FileEntry.mk "/sdcard/DCIM/b.jpg" (SizeResult.ok 0)
          (FileRead.complete []))).length = 9 ∧
    ((dataRows (scan_directory
        (List.replicate 5
          (FileEntry.mk "/sdcard/DCIM/a.jpg" (SizeResult.ok 0)
            (FileRead.complete [])) ++
         FileEntry.mk "/sdcard/DCIM/gone.mp4" (SizeResult.ok 7)
            FileRead.openFail ::
         List.replicate 4
          (FileEntry.mk "/sdcard/DCIM/b.jpg" (SizeResult.ok 0)
            (FileRead.complete []))))).countP
        (fun r => r.status == "Success") = 9 ∧
     (dataRows (scan_directory
        (List.replicate 5
          (FileEntry.mk "/sdcard/DCIM/a.jpg" (SizeResult.ok 0)
            (FileRead.complete [])) ++
         FileEntry.mk "/sdcard/DCIM/gone.mp4" (SizeResult.ok 7)
            FileRead.openFail ::
         List.replicate 4
          (FileEntry.mk "/sdcard/DCIM/b.jpg" (SizeResult.ok 0)
            (FileRead.complete []))))).countP
        (fun r => r.status == "Error - Could not read file") = 1 ∧
     (scan_directory
        (List.replicate 5
          (FileEntry.mk "/sdcard/DCIM/a.jpg" (SizeResult.ok 0)
            (FileRead.complete [])) ++
         FileEntry.mk "/sdcard/DCIM/gone.mp4" (SizeResult.ok 7)
            FileRead.openFail ::
         List.replicate 4
          (FileEntry.mk "/sdcard/DCIM/b.jpg" (SizeResult.ok 0)
            (FileRead.complete [])))).fileCount = 9 ∧
     (scan_directory
        (List.replicate 5
          (FileEntry.mk "/sdcard/DCIM/a.jpg" (SizeResult.ok 0)
            (FileRead.complete [])) ++
         FileEntry.mk "/sdcard/DCIM/gone.mp4" (SizeResult.ok 7)
            FileRead.openFail ::
         List.replicate 4
          (FileEntry.mk "/sdcard/DCIM/b.jpg" (SizeResult.ok 0)
            (FileRead.complete [])))).errorCount = 1) :=
  ⟨by decide, by decide,
    ten_files_one_deleted
      (List.replicate 5
        (FileEntry.mk "/sdcard/DCIM/a.jpg" (SizeResult.ok 0)
          (FileRead.complete [])))
      (List.replicate 4
        (FileEntry.mk "/sdcard/DCIM/b.jpg" (SizeResult.ok 0)
          (FileRead.complete [])))
      (FileEntry.mk "/sdcard/DCIM/gone.mp4" (SizeResult.ok 7) FileRead.openFail)
      7 (by decide) (by decide) rfl rfl⟩
